import Mathlib

/-
  Verification of the NoctiVpn control plane against its design document.

  The data model is a shallow embedding of src/init.sql: lists of rows for
  the tariffs, servers, users and subscriptions tables. UUID columns are
  modelled as Nat identifiers, NUMERIC(10,2) money columns as Int amounts
  in hundredths, and TIMESTAMPTZ columns as Int instants. Connection-only
  server columns (ip_address, api_secret, ports, keys, short_ids) do not
  influence any modelled operation and are omitted.

  The database helpers of src/telegram_bot/index.js (db.createUser,
  db.findBestServer, db.createSubscription, the buy_ action handler and the
  mock payment watcher) are embedded as pure state-passing functions over
  this model.
-/

namespace NoctiVpn

instance {ε α : Type} [DecidableEq ε] [DecidableEq α] : DecidableEq (Except ε α) :=
  fun a b =>
    match a, b with
    | Except.error x, Except.error y =>
      if h : x = y then Decidable.isTrue (by rw [h])
      else Decidable.isFalse (fun hc => h (Except.error.inj hc))
    | Except.ok x, Except.ok y =>
      if h : x = y then Decidable.isTrue (by rw [h])
      else Decidable.isFalse (fun hc => h (Except.ok.inj hc))
    | Except.error _, Except.ok _ => Decidable.isFalse (fun hc => Except.noConfusion hc)
    | Except.ok _, Except.error _ => Decidable.isFalse (fun hc => Except.noConfusion hc)

/-- Values of the sub_status enum in src/init.sql. -/
inductive SubStatus
  | active
  | expired
  | banned
deriving DecidableEq

/-- A row of the tariffs table in src/init.sql. -/
structure Tariff where
  id : Nat
  name : String
  price : Int
  speed_limit_mbps : Nat
  xray_level : Nat
deriving DecidableEq

/-- A row of the servers table in src/init.sql (capacity-relevant columns). -/
structure Server where
  id : Nat
  slug : String
  max_users : Int
  is_enabled : Bool
deriving DecidableEq

/-- A row of the users table in src/init.sql. -/
structure User where
  id : Nat
  tg_id : Int
  username : Option String
  full_name : Option String
  language : String
  balance : Int
  created_at : Int
  updated_at : Int
deriving DecidableEq

/-- A row of the subscriptions table in src/init.sql. -/
structure Subscription where
  id : Nat
  user_id : Nat
  server_id : Nat
  tariff_id : Nat
  xray_uuid : Nat
  email : String
  status : SubStatus
  expire_date : Int
  created_at : Int
  updated_at : Int
deriving DecidableEq

/-- The whole relational store of src/init.sql. -/
structure DBState where
  tariffs : List Tariff
  servers : List Server
  users : List User
  subscriptions : List Subscription
deriving DecidableEq

/-- The current_users column of view_server_load in src/init.sql: the number
of subscription rows on the server whose status is active. -/
def currentUsers (st : DBState) (s : Server) : Nat :=
  (st.subscriptions.filter
    (fun sub => sub.server_id == s.id && sub.status == SubStatus.active)).length

/-- The slots_available column of view_server_load: max_users minus the
active-subscription count. -/
def slotsAvailable (st : DBState) (s : Server) : Int :=
  s.max_users - (currentUsers st s : Int)

/-- The load_percentage column of view_server_load, in tenths of a percent:
ROUND(current_users / max_users * 100, 1) with round-half-away-from-zero
on nonnegative operands. -/
def loadPermille (st : DBState) (s : Server) : Int :=
  if s.max_users = 0 then 0
  else (2 * (1000 * (currentUsers st s : Int)) + s.max_users) / (2 * s.max_users)

/-- The first element of the list minimizing f: the semantics of a stable
ORDER BY f ASC followed by LIMIT 1 on a result set in row order. -/
def selectMin (f : Server → Int) : List Server → Option Server
  | [] => none
  | x :: xs =>
    match selectMin f xs with
    | none => some x
    | some b => if f b < f x then some b else some x

/-- db.findBestServer of src/telegram_bot/index.js: SELECT id FROM
view_server_load WHERE slots_available > 0 ORDER BY load_percentage ASC
LIMIT 1. Note that the view joins every row of servers, with no filter on
is_enabled. -/
def findBestServer (st : DBState) : Option Server :=
  selectMin (loadPermille st)
    (st.servers.filter (fun s => decide (0 < slotsAvailable st s)))

theorem selectMin_eq_none (f : Server → Int) (l : List Server)
    (h : selectMin f l = none) : l = [] := by
  cases l with
  | nil => rfl
  | cons x xs =>
    rw [selectMin] at h
    split at h
    · exact Option.noConfusion h
    · split at h <;> exact Option.noConfusion h

theorem selectMin_mem (f : Server → Int) (l : List Server) (a : Server)
    (h : selectMin f l = some a) : a ∈ l := by
  induction l generalizing a with
  | nil => exact Option.noConfusion h
  | cons x xs ih =>
    rw [selectMin] at h
    split at h
    · cases h
      exact List.mem_cons_self x xs
    · rename_i b hbq
      split at h
      · cases h
        exact List.mem_cons_of_mem x (ih _ hbq)
      · cases h
        exact List.mem_cons_self x xs

theorem selectMin_le (f : Server → Int) (l : List Server) (a : Server)
    (h : selectMin f l = some a) : ∀ b ∈ l, f a ≤ f b := by
  induction l generalizing a with
  | nil => exact Option.noConfusion h
  | cons x xs ih =>
    rw [selectMin] at h
    split at h
    · rename_i hnone
      cases h
      intro b hb
      rcases List.mem_cons.mp hb with rfl | hbm
      · exact le_refl _
      · rw [selectMin_eq_none f xs hnone] at hbm
        exact absurd hbm (List.not_mem_nil b)
    · rename_i c hcq
      split at h
      · rename_i hc
        cases h
        intro b hb
        rcases List.mem_cons.mp hb with rfl | hbm
        · exact le_of_lt hc
        · exact ih _ hcq b hbm
      · rename_i hc
        cases h
        intro b hb
        rcases List.mem_cons.mp hb with rfl | hbm
        · exact le_refl _
        · exact le_trans (not_lt.mp hc) (ih _ hcq b hbm)

/-- C1: any node returned by findBestServer (reading view_server_load with
slots_available > 0) has current_active_count strictly below its max_users;
selection never returns a server at or above its capacity limit. -/
theorem C1_findBestServer_below_capacity (st : DBState) (s : Server)
    (h : findBestServer st = some s) :
    (currentUsers st s : Int) < s.max_users := by
  have hmem := selectMin_mem _ _ _ h
  have hfil := List.mem_filter.mp hmem
  have h2 : 0 < slotsAvailable st s := of_decide_eq_true hfil.2
  unfold slotsAvailable at h2
  omega

/-- Witness state for the selection theorems: one half-loaded server. -/
def wSrv1 : Server := { id := 1, slug := "fi-1", max_users := 2, is_enabled := true }

def wSub1 : Subscription :=
  { id := 50, user_id := 3, server_id := 1, tariff_id := 1, xray_uuid := 111,
    email := "user_1_111", status := SubStatus.active, expire_date := 1000,
    created_at := 0, updated_at := 0 }

def wSt1 : DBState :=
  { tariffs := [], servers := [wSrv1], users := [], subscriptions := [wSub1] }

theorem C1_witness :
    findBestServer wSt1 = some wSrv1 ∧ (currentUsers wSt1 wSrv1 : Int) < wSrv1.max_users :=
  ⟨by decide, C1_findBestServer_below_capacity wSt1 wSrv1 (by decide)⟩

/-- Counterexample state for C2: a single disabled server with free capacity.
view_server_load joins every servers row and never reads is_enabled, so
db.findBestServer happily returns a disabled node. -/
def cSrv2 : Server := { id := 4, slug := "off-1", max_users := 100, is_enabled := false }

def cSt2 : DBState :=
  { tariffs := [], servers := [cSrv2], users := [], subscriptions := [] }

/-- C2 counterexample: the claim says selection considers only enabled nodes
(is_enabled = true); here findBestServer returns a server whose is_enabled
is false, so the claim as stated is refuted at this concrete state. -/
theorem C2_counterexample :
    findBestServer cSt2 = some cSrv2 ∧ cSrv2.is_enabled = false := by
  decide

/-- C2 (amended): selection considers every servers row regardless of
is_enabled, excludes exactly those with current_active_count at or above
max_users (slots_available at most 0), and among the remaining rows returns
one with the minimal load percentage; the tie-break is the row order of the
result set, not the current count or the node id. -/
theorem C2_findBestServer_minimal_load (st : DBState) (s : Server)
    (h : findBestServer st = some s) :
    s ∈ st.servers ∧ 0 < slotsAvailable st s ∧
      ∀ c ∈ st.servers, 0 < slotsAvailable st c →
        loadPermille st s ≤ loadPermille st c := by
  have hmem := selectMin_mem _ _ _ h
  have hfil := List.mem_filter.mp hmem
  refine ⟨hfil.1, of_decide_eq_true hfil.2, ?_⟩
  intro c hc hslots
  exact selectMin_le _ _ _ h c (List.mem_filter.mpr ⟨hc, decide_eq_true hslots⟩)

/-- Witness state for C2 amended: two servers with free capacity, the first
more loaded than the second; selection picks the lighter one. -/
def wSrvA : Server := { id := 1, slug := "a-1", max_users := 2, is_enabled := true }

def wSrvB : Server := { id := 2, slug := "b-1", max_users := 2, is_enabled := true }

def wSt2 : DBState :=
  { tariffs := [], servers := [wSrvA, wSrvB], users := [],
    subscriptions := [wSub1] }

theorem C2_witness :
    findBestServer wSt2 = some wSrvB ∧
      (wSrvB ∈ wSt2.servers ∧ 0 < slotsAvailable wSt2 wSrvB ∧
        ∀ c ∈ wSt2.servers, 0 < slotsAvailable wSt2 c →
          loadPermille wSt2 wSrvB ≤ loadPermille wSt2 c) :=
  ⟨by decide, C2_findBestServer_minimal_load wSt2 wSrvB (by decide)⟩

/-- Lookup used by db.createSubscription step 1: SELECT price FROM tariffs
WHERE id equals the given tariff id (first matching row). -/
def getTariff (st : DBState) (tid : Nat) : Option Tariff :=
  st.tariffs.find? (fun t => decide (t.id = tid))

/-- Row lookup by users.id (primary key). -/
def getUserById (st : DBState) (uid : Nat) : Option User :=
  st.users.find? (fun u => decide (u.id = uid))

/-- Failure outcomes of db.createSubscription: the explicit Insufficient
balance throw, plus the statement-level failures that abort the transaction
(missing tariff row, server foreign key, uq_xray_uuid violation). Any error
leaves the store unchanged because the catch block issues ROLLBACK. -/
inductive SubError
  | tariffNotFound
  | insufficientBalance
  | serverNotFound
  | uuidConflict
deriving DecidableEq

/-- The generated Xray log email of db.createSubscription:
user_(tariffId)_(uuid prefix); the uuid is abstract here so the whole
identifier stands in for its 8-character prefix. -/
def mkEmail (tid uuid : Nat) : String :=
  "user_" ++ toString tid ++ "_" ++ toString uuid

/-- The row inserted by db.createSubscription step 3: status active, expiry
now plus durationDays days (86400 seconds each). -/
def mkSub (uid tid sid uuid subId : Nat) (now durationDays : Int) : Subscription :=
  { id := subId, user_id := uid, server_id := sid, tariff_id := tid,
    xray_uuid := uuid, email := mkEmail tid uuid, status := SubStatus.active,
    expire_date := now + durationDays * 86400, created_at := now,
    updated_at := now }

/-- The conditional UPDATE of db.createSubscription step 2: debit price from
every users row matching id = uid AND balance at least price (the
updated_at column is refreshed by the users_updated_at trigger). -/
def debitUsers (users : List User) (uid : Nat) (price now : Int) : List User :=
  users.map (fun u =>
    if u.id = uid ∧ price ≤ u.balance then
      { u with balance := u.balance - price, updated_at := now }
    else u)

/-- db.createSubscription of src/telegram_bot/index.js: inside one
transaction, read the tariff price, run the conditional balance debit
(throwing Insufficient balance when no row is updated), then insert the
subscription row, which the schema guards with the servers foreign key and
the uq_xray_uuid unique constraint; any failure rolls the whole
transaction back, so an error result carries no state change. -/
def createSubscription (st : DBState) (uid tid sid uuid subId : Nat)
    (now durationDays : Int) : Except SubError DBState :=
  match getTariff st tid with
  | none => Except.error SubError.tariffNotFound
  | some t =>
    if st.users.any (fun u => decide (u.id = uid ∧ t.price ≤ u.balance)) then
      if st.servers.any (fun s => decide (s.id = sid)) then
        if st.subscriptions.any (fun sub => decide (sub.xray_uuid = uuid)) then
          Except.error SubError.uuidConflict
        else
          Except.ok { st with
            users := debitUsers st.users uid t.price now,
            subscriptions :=
              mkSub uid tid sid uuid subId now durationDays :: st.subscriptions }
      else Except.error SubError.serverNotFound
    else Except.error SubError.insufficientBalance

/-- C4: a successful purchase debits the buyer by exactly the plan price and
prepends exactly one subscription row with status active bound to that
user, plan and server (the shape of mkSub); with the tariff and buyer rows
present and user ids unique, success requires balance at least price, and
a lower balance yields the insufficient-funds error. -/
theorem C4_createSubscription_debit_insert (st : DBState)
    (uid tid sid uuid subId : Nat) (now : Int) (st' : DBState)
    (t : Tariff) (ht : getTariff st tid = some t)
    (u : User) (hu : getUserById st uid = some u)
    (hnodup : (st.users.map User.id).Nodup) :
    (createSubscription st uid tid sid uuid subId now 30 = Except.ok st' →
      t.price ≤ u.balance ∧
      st' = { st with
        users := st.users.map (fun v =>
          if v.id = uid then
            { v with balance := v.balance - t.price, updated_at := now }
          else v),
        subscriptions := mkSub uid tid sid uuid subId now 30 :: st.subscriptions }) ∧
    (u.balance < t.price →
      createSubscription st uid tid sid uuid subId now 30 =
        Except.error SubError.insufficientBalance) := by
  have hu' : st.users.find? (fun v => decide (v.id = uid)) = some u := hu
  have humem : u ∈ st.users := List.mem_of_find?_eq_some hu'
  have huid : u.id = uid := by
    have h0 := List.find?_some hu'
    simpa using h0
  constructor
  · intro hok
    simp only [createSubscription, ht] at hok
    split at hok
    · rename_i hany
      split at hok
      · rename_i hsrv
        split at hok
        · exact Except.noConfusion hok
        · rename_i hnix
          cases hok
          obtain ⟨v, hvmem, hvdec⟩ := List.any_eq_true.mp hany
          obtain ⟨hvid, hvbal⟩ := of_decide_eq_true hvdec
          have hvu : v = u :=
            List.inj_on_of_nodup_map hnodup hvmem humem (by rw [hvid, huid])
          subst hvu
          refine ⟨hvbal, ?_⟩
          have hmap : debitUsers st.users uid t.price now =
              st.users.map (fun w =>
                if w.id = uid then
                  { w with balance := w.balance - t.price, updated_at := now }
                else w) := by
            unfold debitUsers
            apply List.map_congr_left
            intro w hw
            by_cases hwid : w.id = uid
            · have hwu : w = v :=
                List.inj_on_of_nodup_map hnodup hw hvmem (by rw [hwid, hvid])
              subst hwu
              rw [if_pos ⟨hwid, hvbal⟩, if_pos hwid]
            · rw [if_neg (fun hc => hwid hc.1), if_neg hwid]
          rw [hmap]
      · exact Except.noConfusion hok
    · exact Except.noConfusion hok
  · intro hlt
    have hany : st.users.any
        (fun v => decide (v.id = uid ∧ t.price ≤ v.balance)) = false := by
      rw [List.any_eq_false]
      intro v hv hdec
      obtain ⟨hvid, hvbal⟩ := of_decide_eq_true hdec
      have hvu : v = u :=
        List.inj_on_of_nodup_map hnodup hv humem (by rw [hvid, huid])
      subst hvu
      omega
    simp only [createSubscription, ht]
    rw [hany]
    simp

/-- Witness rows for the purchase theorems: one tariff, one roomy server,
one funded user. -/
def wTar : Tariff :=
  { id := 1, name := "Basic", price := 2900, speed_limit_mbps := 1, xray_level := 1 }

def wUsr : User :=
  { id := 3, tg_id := 10, username := none, full_name := none, language := "en",
    balance := 10000, created_at := 0, updated_at := 0 }

def wSrv4 : Server := { id := 7, slug := "de-1", max_users := 100, is_enabled := true }

def wSt4 : DBState :=
  { tariffs := [wTar], servers := [wSrv4], users := [wUsr], subscriptions := [] }

/-- The state db.createSubscription produces from wSt4. -/
def wSt4res : DBState :=
  { tariffs := [wTar], servers := [wSrv4],
    users := [{ wUsr with balance := 7100, updated_at := 5 }],
    subscriptions := [mkSub 3 1 7 222 51 5 30] }

theorem C4_witness :
    getTariff wSt4 1 = some wTar ∧ getUserById wSt4 3 = some wUsr ∧
      (wSt4.users.map User.id).Nodup ∧
      createSubscription wSt4 3 1 7 222 51 5 30 = Except.ok wSt4res ∧
      (wTar.price ≤ wUsr.balance ∧
        wSt4res = { wSt4 with
          users := wSt4.users.map (fun v =>
            if v.id = 3 then
              { v with balance := v.balance - wTar.price, updated_at := 5 }
            else v),
          subscriptions := mkSub 3 1 7 222 51 5 30 :: wSt4.subscriptions }) :=
  ⟨by decide, by decide, by decide, by decide,
    (C4_createSubscription_debit_insert wSt4 3 1 7 222 51 5 wSt4res wTar
      (by decide) wUsr (by decide) (by decide)).1 (by decide)⟩

/-- Counterexample state for C5: server 7 is already at capacity
(max_users = 1 with one active subscription) and user 3 has enough
balance. -/
def cSrv5 : Server := { id := 7, slug := "full-1", max_users := 1, is_enabled := true }

def cSub5 : Subscription :=
  { id := 50, user_id := 9, server_id := 7, tariff_id := 1, xray_uuid := 111,
    email := "user_1_111", status := SubStatus.active, expire_date := 1000,
    created_at := 0, updated_at := 0 }

def cSt5 : DBState :=
  { tariffs := [wTar], servers := [cSrv5], users := [wUsr], subscriptions := [cSub5] }

def cSt5res : DBState :=
  { tariffs := [wTar], servers := [cSrv5],
    users := [{ wUsr with balance := 7100, updated_at := 5 }],
    subscriptions := [mkSub 3 1 7 222 51 5 30, cSub5] }

/-- C5 counterexample: the claim says that whenever the target server
already has current_active_count at or above max_users, createSubscription
fails and inserts nothing on that server; here server 7 is full, yet
createSubscription succeeds and prepends a second row on server 7
(db.createSubscription contains no capacity condition at all). -/
theorem C5_counterexample :
    cSrv5 ∈ cSt5.servers ∧
      cSrv5.max_users ≤ (currentUsers cSt5 cSrv5 : Int) ∧
      createSubscription cSt5 3 1 7 222 51 5 30 = Except.ok cSt5res ∧
      cSt5res.subscriptions.length = cSt5.subscriptions.length + 1 ∧
      (mkSub 3 1 7 222 51 5 30).server_id = cSrv5.id := by
  decide

/-- C5 (amended): the transactional guard of db.createSubscription covers
only the balance debit; it performs no capacity check, so when the tariff
and buyer exist, the balance suffices, the server row exists and the
credential id is fresh, creation succeeds and inserts a row on the target
server even if that server is already at or above max_users. -/
theorem C5_createSubscription_balance_guard_only (st : DBState)
    (uid tid sid uuid subId : Nat) (now : Int)
    (t : Tariff) (ht : getTariff st tid = some t)
    (u : User) (hu : getUserById st uid = some u) (hb : t.price ≤ u.balance)
    (s : Server) (hsm : s ∈ st.servers) (hsid : s.id = sid)
    (hx : ∀ sub ∈ st.subscriptions, sub.xray_uuid ≠ uuid)
    (hfull : s.max_users ≤ (currentUsers st s : Int)) :
    createSubscription st uid tid sid uuid subId now 30 =
      Except.ok { st with
        users := debitUsers st.users uid t.price now,
        subscriptions := mkSub uid tid sid uuid subId now 30 :: st.subscriptions } := by
  have hu' : st.users.find? (fun v => decide (v.id = uid)) = some u := hu
  have humem : u ∈ st.users := List.mem_of_find?_eq_some hu'
  have huid : u.id = uid := by
    have h0 := List.find?_some hu'
    simpa using h0
  have hany : st.users.any
      (fun v => decide (v.id = uid ∧ t.price ≤ v.balance)) = true :=
    List.any_eq_true.mpr ⟨u, humem, decide_eq_true ⟨huid, hb⟩⟩
  have hsany : st.servers.any (fun v => decide (v.id = sid)) = true :=
    List.any_eq_true.mpr ⟨s, hsm, decide_eq_true hsid⟩
  have hxany : st.subscriptions.any
      (fun sub => decide (sub.xray_uuid = uuid)) = false := by
    rw [List.any_eq_false]
    intro sub hsub hdec
    exact hx sub hsub (of_decide_eq_true hdec)
  simp only [createSubscription, ht]
  rw [hany, hsany, hxany]
  simp

theorem C5_witness :
    getTariff cSt5 1 = some wTar ∧ getUserById cSt5 3 = some wUsr ∧
      wTar.price ≤ wUsr.balance ∧ cSrv5 ∈ cSt5.servers ∧ cSrv5.id = 7 ∧
      (∀ sub ∈ cSt5.subscriptions, sub.xray_uuid ≠ 222) ∧
      cSrv5.max_users ≤ (currentUsers cSt5 cSrv5 : Int) ∧
      createSubscription cSt5 3 1 7 222 51 5 30 =
        Except.ok { cSt5 with
          users := debitUsers cSt5.users 3 wTar.price 5,
          subscriptions := mkSub 3 1 7 222 51 5 30 :: cSt5.subscriptions } :=
  ⟨by decide, by decide, by decide, by decide, by decide, by decide, by decide,
    C5_createSubscription_balance_guard_only cSt5 3 1 7 222 51 5 wTar (by decide)
      wUsr (by decide) (by decide) cSrv5 (by decide) (by decide)
      (by decide) (by decide)⟩

/-- Replies the buy_ action handler can end with: the distinct
insufficient-balance and no-servers messages, the success message, the
generic catch-block message wrapping a rolled-back createSubscription
error, and the crash when the tapped tariff id matches no plan. -/
inductive BuyResult
  | planNotFound
  | insufficientBalance
  | noServers
  | purchased
  | purchaseFailed (e : SubError)
deriving DecidableEq

/-- The buy_ action handler of src/telegram_bot/index.js, given the
middleware-provided user row: look the plan up in getTariffs, reject when
the balance is below the price, reject when findBestServer returns no row,
otherwise run db.createSubscription and report its outcome. -/
def buyAction (st : DBState) (user : User) (tid uuid subId : Nat) (now : Int) :
    DBState × BuyResult :=
  match getTariff st tid with
  | none => (st, BuyResult.planNotFound)
  | some plan =>
    if user.balance < plan.price then (st, BuyResult.insufficientBalance)
    else
      match findBestServer st with
      | none => (st, BuyResult.noServers)
      | some srv =>
        match createSubscription st user.id tid srv.id uuid subId now 30 with
        | Except.ok st' => (st', BuyResult.purchased)
        | Except.error e => (st, BuyResult.purchaseFailed e)

/-- C3: every purchase attempt that does not end in the success reply —
in particular the distinct insufficient-balance and no-servers replies,
and any rolled-back createSubscription error — leaves the store exactly as
it was: no subscription row appears and no balance changes. -/
theorem C3_buy_failure_preserves_state (st : DBState) (user : User)
    (tid uuid subId : Nat) (now : Int) (st' : DBState) (r : BuyResult)
    (h : buyAction st user tid uuid subId now = (st', r))
    (hr : r ≠ BuyResult.purchased) :
    st' = st ∧ st'.subscriptions = st.subscriptions ∧ st'.users = st.users := by
  unfold buyAction at h
  split at h
  · cases h
    exact ⟨rfl, rfl, rfl⟩
  · split at h
    · cases h
      exact ⟨rfl, rfl, rfl⟩
    · split at h
      · cases h
        exact ⟨rfl, rfl, rfl⟩
      · split at h
        · cases h
          exact absurd rfl hr
        · cases h
          exact ⟨rfl, rfl, rfl⟩

/-- Witness state for C3: the funded user faces an empty server fleet, so
the purchase fails with the no-servers reply and changes nothing. -/
def wSt3 : DBState :=
  { tariffs := [wTar], servers := [], users := [wUsr], subscriptions := [] }

theorem C3_witness :
    buyAction wSt3 wUsr 1 222 51 5 = (wSt3, BuyResult.noServers) ∧
      BuyResult.noServers ≠ BuyResult.purchased ∧
      (wSt3 = wSt3 ∧ wSt3.subscriptions = wSt3.subscriptions ∧
        wSt3.users = wSt3.users) :=
  ⟨by decide, by decide,
    C3_buy_failure_preserves_state wSt3 wUsr 1 222 51 5 wSt3
      BuyResult.noServers (by decide) (by decide)⟩

/-- db.createUser of src/telegram_bot/index.js: INSERT INTO users (tg_id,
username) VALUES (tgId, username) ON CONFLICT (tg_id) DO UPDATE SET
username, RETURNING the upserted row; column defaults fill the remaining
fields of a fresh row and the users_updated_at trigger refreshes
updated_at on conflict. -/
def createUser (st : DBState) (tgId : Int) (username : Option String)
    (freshId : Nat) (now : Int) : DBState × User :=
  match st.users.find? (fun u => decide (u.tg_id = tgId)) with
  | some u =>
    ({ st with users := st.users.map (fun v =>
        if v.tg_id = tgId then { v with username := username, updated_at := now }
        else v) },
     { u with username := username, updated_at := now })
  | none =>
    let u : User :=
      { id := freshId, tg_id := tgId, username := username,
        full_name := none, language := "en", balance := 0, created_at := now,
        updated_at := now }
    ({ st with users := st.users ++ [u] }, u)

/-- C9: when the tg_id already has a row, createUser inserts no second row,
returns that row with only username and updated_at replaced (id, balance
and created_at intact), leaves every row with a different tg_id untouched,
and preserves id, balance and created_at of every existing row, so running
it on every incoming message never affects balances. -/
theorem C9_createUser_idempotent_upsert (st : DBState) (tgId : Int)
    (username : Option String) (freshId : Nat) (now : Int) (u : User)
    (hu : st.users.find? (fun v => decide (v.tg_id = tgId)) = some u) :
    ((createUser st tgId username freshId now).1.users.length = st.users.length) ∧
    ((createUser st tgId username freshId now).2 =
      { u with username := username, updated_at := now }) ∧
    ((createUser st tgId username freshId now).2.id = u.id ∧
      (createUser st tgId username freshId now).2.balance = u.balance ∧
      (createUser st tgId username freshId now).2.created_at = u.created_at) ∧
    (∀ v ∈ st.users, v.tg_id ≠ tgId →
      v ∈ (createUser st tgId username freshId now).1.users) ∧
    (∀ v ∈ st.users, ∃ w ∈ (createUser st tgId username freshId now).1.users,
      w.id = v.id ∧ w.balance = v.balance ∧ w.created_at = v.created_at) := by
  simp only [createUser, hu]
  refine ⟨List.length_map _ _, trivial, ⟨trivial, trivial, trivial⟩, ?_, ?_⟩
  · intro v hv hne
    exact List.mem_map.mpr ⟨v, hv, by rw [if_neg hne]⟩
  · intro v hv
    refine ⟨if v.tg_id = tgId
        then { v with username := username, updated_at := now } else v,
      List.mem_map_of_mem _ hv, ?_⟩
    by_cases hv2 : v.tg_id = tgId
    · rw [if_pos hv2]
      exact ⟨rfl, rfl, rfl⟩
    · rw [if_neg hv2]
      exact ⟨rfl, rfl, rfl⟩

theorem C9_witness :
    wSt4.users.find? (fun v => decide (v.tg_id = 10)) = some wUsr ∧
      ((createUser wSt4 10 (some "alice") 99 7).1.users.length =
          wSt4.users.length ∧
        (createUser wSt4 10 (some "alice") 99 7).2 =
          { wUsr with username := some "alice", updated_at := 7 } ∧
        ((createUser wSt4 10 (some "alice") 99 7).2.id = wUsr.id ∧
          (createUser wSt4 10 (some "alice") 99 7).2.balance = wUsr.balance ∧
          (createUser wSt4 10 (some "alice") 99 7).2.created_at = wUsr.created_at) ∧
        (∀ v ∈ wSt4.users, v.tg_id ≠ 10 →
          v ∈ (createUser wSt4 10 (some "alice") 99 7).1.users) ∧
        (∀ v ∈ wSt4.users, ∃ w ∈ (createUser wSt4 10 (some "alice") 99 7).1.users,
          w.id = v.id ∧ w.balance = v.balance ∧ w.created_at = v.created_at)) :=
  ⟨by decide,
    C9_createUser_idempotent_upsert wSt4 10 (some "alice") 99 7 wUsr (by decide)⟩

/-- Modelled from the spec: no Expiry Sweeper exists under src/ (spec
section 4.4 describes it; nothing in the repository updates a subscription
status). One row of the conditional update: a subscription whose status is
still active and whose expiry timestamp is strictly in the past at sweep
time becomes expired (updated_at refreshed by the trigger); every other
row is untouched. -/
def expireRow (now : Int) (s : Subscription) : Subscription :=
  if s.status = SubStatus.active ∧ s.expire_date < now then
    { s with status := SubStatus.expired, updated_at := now }
  else s

/-- Modelled from the spec: one Expiry Sweeper run at time now applies the
conditional update to every subscription row. -/
def sweepExpiry (st : DBState) (now : Int) : DBState :=
  { st with subscriptions := st.subscriptions.map (expireRow now) }

theorem expireRow_idem (now : Int) (s : Subscription) :
    expireRow now (expireRow now s) = expireRow now s := by
  unfold expireRow
  by_cases h : s.status = SubStatus.active ∧ s.expire_date < now
  · rw [if_pos h, if_neg]
    intro hc
    exact SubStatus.noConfusion hc.1
  · rw [if_neg h, if_neg h]

/-- C7: the sweep turns an active subscription into an expired one exactly
when its expiry timestamp is strictly in the past at sweep time, leaves an
already-expired subscription untouched, and running the whole sweep a
second time at the same instant changes nothing. -/
theorem C7_sweepExpiry_iff_past (st : DBState) (now : Int) :
    (∀ s : Subscription, s.status = SubStatus.active →
      ((expireRow now s).status = SubStatus.expired ↔ s.expire_date < now)) ∧
    (∀ s : Subscription, s.status = SubStatus.expired → expireRow now s = s) ∧
    sweepExpiry (sweepExpiry st now) now = sweepExpiry st now := by
  refine ⟨?_, ?_, ?_⟩
  · intro s hs
    by_cases hd : s.expire_date < now
    · simp [expireRow, hs, hd]
    · simp [expireRow, hs, hd]
  · intro s hs
    unfold expireRow
    rw [if_neg]
    intro hc
    rw [hs] at hc
    exact SubStatus.noConfusion hc.1
  · unfold sweepExpiry
    simp only [List.map_map]
    congr 1
    apply List.map_congr_left
    intro s _
    exact expireRow_idem now s

theorem C7_witness :
    wSub1.status = SubStatus.active ∧
      ((expireRow 2000 wSub1).status = SubStatus.expired ↔
        wSub1.expire_date < 2000) ∧
      sweepExpiry (sweepExpiry wSt1 2000) 2000 = sweepExpiry wSt1 2000 :=
  ⟨by decide, (C7_sweepExpiry_iff_past wSt1 2000).1 wSub1 (by decide),
    (C7_sweepExpiry_iff_past wSt1 2000).2.2⟩

/-- The mock payment watcher of src/telegram_bot/index.js: the setInterval
body consists solely of comments describing a future implementation, so a
tick runs no query and no send; its embedding is the identity on the
store. -/
def paymentWatcherTick (st : DBState) : DBState := st

/-- C10: every tick of the payment watcher interval leaves the entire store
state unchanged, so no deposit ever increases any balance through this
code path. -/
theorem C10_paymentWatcher_noop (st : DBState) :
    paymentWatcherTick st = st ∧
      (paymentWatcherTick st).users = st.users ∧
      (paymentWatcherTick st).subscriptions = st.subscriptions :=
  ⟨rfl, rfl, rfl⟩

/-- Modelled from the spec: one credential loaded on a proxy node (spec
section 4.1; no Node Client exists under src/, the node is reached only
through the management RPC described in src/docs/xray-setup.md). -/
structure Credential where
  id : Nat
  tier : Nat
  label : String
deriving DecidableEq

/-- Modelled from the spec: the live credential list of one proxy node. -/
structure NodeState where
  credentials : List Credential
deriving DecidableEq

/-- Modelled from the spec: addCredential(id, tier, label) loads a
credential on the node; an already-present id is reported as
alreadyExists, which the client treats as success, so the state is
returned unchanged and no duplicate entry appears. -/
def addCredential (ns : NodeState) (cid tier : Nat) (label : String) : NodeState :=
  if ns.credentials.any (fun c => decide (c.id = cid)) then ns
  else { credentials := { id := cid, tier := tier, label := label } :: ns.credentials }

/-- Modelled from the spec: removeCredential(id) unloads every entry with
that id; an absent id is reported as notFound, which the client treats as
success. -/
def removeCredential (ns : NodeState) (cid : Nat) : NodeState :=
  { credentials := ns.credentials.filter (fun c => decide (c.id ≠ cid)) }

/-- C8: addCredential and removeCredential are idempotent — calling either
a second time with the same id leaves the node state exactly as after the
first call (alreadyExists and notFound node responses count as success). -/
theorem C8_credential_ops_idempotent (ns : NodeState) (cid tier : Nat)
    (label : String) :
    addCredential (addCredential ns cid tier label) cid tier label =
        addCredential ns cid tier label ∧
      removeCredential (removeCredential ns cid) cid = removeCredential ns cid := by
  constructor
  · unfold addCredential
    by_cases h : ns.credentials.any (fun c => decide (c.id = cid)) = true
    · rw [if_pos h, if_pos h]
    · rw [if_neg h]
      rw [if_pos]
      apply List.any_eq_true.mpr
      exact ⟨{ id := cid, tier := tier, label := label },
        List.mem_cons_self _ _, decide_eq_true rfl⟩
  · unfold removeCredential
    congr 1
    rw [List.filter_filter]
    apply List.filter_congr
    intro c _
    exact Bool.and_self _

/-- The uq_xray_uuid constraint of src/init.sql as a state predicate: no two
subscription rows carry the same credential identifier. -/
def uuidUnique (st : DBState) : Prop :=
  (st.subscriptions.map Subscription.xray_uuid).Nodup

instance (st : DBState) : Decidable (uuidUnique st) :=
  inferInstanceAs (Decidable ((st.subscriptions.map Subscription.xray_uuid).Nodup))

theorem uuidUnique_createSubscription (st : DBState)
    (uid tid sid uuid subId : Nat) (now d : Int) (st' : DBState)
    (hun : uuidUnique st)
    (hok : createSubscription st uid tid sid uuid subId now d = Except.ok st') :
    uuidUnique st' := by
  simp only [createSubscription] at hok
  split at hok
  · exact Except.noConfusion hok
  · split at hok
    · split at hok
      · split at hok
        · exact Except.noConfusion hok
        · rename_i hnix
          cases hok
          have hfresh : ∀ sub ∈ st.subscriptions, sub.xray_uuid ≠ uuid := by
            intro sub hsub heq
            exact hnix (List.any_eq_true.mpr ⟨sub, hsub, decide_eq_true heq⟩)
          unfold uuidUnique at hun ⊢
          simp only [List.map_cons, List.nodup_cons]
          refine ⟨?_, hun⟩
          intro hmem
          obtain ⟨sub, hsub, hequ⟩ := List.mem_map.mp hmem
          exact hfresh sub hsub (by simpa [mkSub] using hequ)
      · exact Except.noConfusion hok
    · exact Except.noConfusion hok

theorem uuidUnique_createUser (st : DBState) (tgId : Int)
    (username : Option String) (freshId : Nat) (now : Int)
    (hun : uuidUnique st) :
    uuidUnique (createUser st tgId username freshId now).1 := by
  unfold createUser
  split
  · exact hun
  · exact hun

theorem uuidUnique_sweepExpiry (st : DBState) (now : Int)
    (hun : uuidUnique st) : uuidUnique (sweepExpiry st now) := by
  have hcomp : ∀ s : Subscription, (expireRow now s).xray_uuid = s.xray_uuid := by
    intro s
    unfold expireRow
    split
    · rfl
    · rfl
  unfold uuidUnique at hun ⊢
  unfold sweepExpiry
  simp only [List.map_map]
  have hmapeq : List.map (Subscription.xray_uuid ∘ expireRow now) st.subscriptions =
      List.map Subscription.xray_uuid st.subscriptions :=
    List.map_congr_left (fun s _ => hcomp s)
  rw [hmapeq]
  exact hun

theorem uuidUnique_buyAction (st : DBState) (user : User)
    (tid uuid subId : Nat) (now : Int) (st' : DBState) (r : BuyResult)
    (hun : uuidUnique st)
    (h : buyAction st user tid uuid subId now = (st', r)) : uuidUnique st' := by
  unfold buyAction at h
  split at h
  · cases h
    exact hun
  · split at h
    · cases h
      exact hun
    · split at h
      · cases h
        exact hun
      · rename_i srv hsrv
        split at h
        · rename_i hok
          cases h
          exact uuidUnique_createSubscription st user.id tid srv.id uuid subId
            now 30 _ hun hok
        · cases h
          exact hun

/-- C6: the credential identifier is unique system-wide; every modelled
store operation — createSubscription (guarded by uq_xray_uuid),
createUser, the buy handler, the sweep and the watcher tick — preserves
the uniqueness invariant. -/
theorem C6_xray_uuid_unique_preserved :
    (∀ (st : DBState) (uid tid sid uuid subId : Nat) (now d : Int)
        (st' : DBState), uuidUnique st →
      createSubscription st uid tid sid uuid subId now d = Except.ok st' →
      uuidUnique st') ∧
    (∀ (st : DBState) (tgId : Int) (username : Option String) (freshId : Nat)
        (now : Int), uuidUnique st →
      uuidUnique (createUser st tgId username freshId now).1) ∧
    (∀ (st : DBState) (user : User) (tid uuid subId : Nat) (now : Int)
        (st' : DBState) (r : BuyResult), uuidUnique st →
      buyAction st user tid uuid subId now = (st', r) → uuidUnique st') ∧
    (∀ (st : DBState) (now : Int), uuidUnique st →
      uuidUnique (sweepExpiry st now)) ∧
    (∀ st : DBState, uuidUnique st → uuidUnique (paymentWatcherTick st)) :=
  ⟨fun st uid tid sid uuid subId now d st' hun hok =>
      uuidUnique_createSubscription st uid tid sid uuid subId now d st' hun hok,
    fun st tgId username freshId now hun =>
      uuidUnique_createUser st tgId username freshId now hun,
    fun st user tid uuid subId now st' r hun h =>
      uuidUnique_buyAction st user tid uuid subId now st' r hun h,
    fun st now hun => uuidUnique_sweepExpiry st now hun,
    fun _ hun => hun⟩

theorem C6_witness :
    uuidUnique cSt5 ∧
      createSubscription cSt5 3 1 7 222 51 5 30 = Except.ok cSt5res ∧
      uuidUnique cSt5res :=
  ⟨by decide, by decide,
    C6_xray_uuid_unique_preserved.1 cSt5 3 1 7 222 51 5 30 cSt5res
      (by decide) (by decide)⟩

end NoctiVpn
